import Mathlib

/-!
# Verification of the e2eClipUploader render pipeline

Shallow embedding of the render pipeline of `app/main.py` and
`pipeline/transcribe/script.py`.  Python floats are modelled as rationals,
Python strings as `String` / `List Char`, and the filesystem / subprocess
boundary as explicit parameters recording each external collaborator's
outcome.
-/

namespace E2EClip

/-- Python `round` (round-half-to-even, "banker's rounding") on a rational. -/
def pyRound (q : ℚ) : ℤ :=
  if q - (⌊q⌋ : ℚ) < 1/2 then ⌊q⌋
  else if 1/2 < q - (⌊q⌋ : ℚ) then ⌊q⌋ + 1
  else if ⌊q⌋ % 2 = 0 then ⌊q⌋ else ⌊q⌋ + 1

/-- `max(0.0, min(1.0, v))` (main.py:1326, 1362-1363). -/
def clamp01 (v : ℚ) : ℚ := max 0 (min 1 v)

/-- A crop rectangle as sent by the client (the `game` / `camera` dicts);
missing fields default to `x=0, y=0, w=1, h=1` (main.py:1358-1359). -/
structure RectIn where
  x : ℚ
  y : ℚ
  w : ℚ
  h : ℚ
deriving DecidableEq

/-- The default rect used when the request specifies no crop. -/
def fullRect : RectIn := ⟨0, 0, 1, 1⟩

/-- Clamping of a crop rect (main.py:1362-1368): clamp every coordinate to
`[0,1]`, then clamp `w`/`h` so the crop fits inside the frame, with a `1e-6`
floor. -/
def clampRect (r : RectIn) : RectIn :=
  let x := clamp01 r.x
  let y := clamp01 r.y
  let w0 := clamp01 r.w
  let h0 := clamp01 r.h
  let w := max (1/1000000) (min w0 (1 - x))
  let h := max (1/1000000) (min h0 (1 - y))
  ⟨x, y, w, h⟩

/-- Panel heights of the 1080x1920 output canvas, in pixels. -/
structure LayoutPlan where
  topH : ℤ
  botH : ℤ
deriving DecidableEq

/-- Inverse aspect weight (main.py:1374-1380): `a` floored to `1e-6` when
non-positive, then inverted (`p = 1.0 / a`). -/
def pAspect (a : ℚ) : ℚ := 1 / (if a ≤ 0 then 1/1000000 else a)

/-- The fraction of the canvas height assigned to the top (camera) panel
before rounding: `p_cam / (p_cam + p_game)` in auto-split mode
(main.py:1373-1382), `1 - game_ratio` in manual mode (main.py:1385). -/
def heightFrac (autoSplit : Bool) (cam game : RectIn) (gRatio : ℚ) : ℚ :=
  if autoSplit = true ∧ 0 < cam.w ∧ 0 < cam.h ∧ 0 < game.w ∧ 0 < game.h then
    pAspect (cam.w / cam.h) / (pAspect (cam.w / cam.h) + pAspect (game.w / game.h))
  else 1 - gRatio

/-- Raw section heights (main.py:1382-1386):
`top_h = max(2, round(1920 * frac))`, `bot_h = max(2, 1920 - top_h)`. -/
def rawHeights (autoSplit : Bool) (cam game : RectIn) (gRatio : ℚ) : ℤ × ℤ :=
  let t := max 2 (pyRound (1920 * heightFrac autoSplit cam game gRatio))
  (t, max 2 (1920 - t))

/-- Parity and sum fixups (main.py:1387-1393): odd top grows by one, odd
bottom shrinks by one, non-positive bottom becomes 2, and finally the bottom
is recomputed whenever the sum differs from 1920. -/
def fixHeights (p : ℤ × ℤ) : LayoutPlan :=
  let topH := if p.1 % 2 ≠ 0 then p.1 + 1 else p.1
  let botH := if p.2 % 2 ≠ 0 then p.2 - 1 else p.2
  let botH := if botH ≤ 0 then 2 else botH
  let botH := if topH + botH ≠ 1920 then 1920 - topH else botH
  ⟨topH, botH⟩

/-- Section heights (main.py:1371-1393). -/
def computeHeights (autoSplit : Bool) (cam game : RectIn) (gRatio : ℚ) : LayoutPlan :=
  fixHeights (rawHeights autoSplit cam game gRatio)

/-- The layout plan as computed by `api_render` from the raw request values:
`game_ratio` clamped to `[0,1]` (main.py:1326), crops clamped
(main.py:1362-1368), then heights computed (main.py:1373-1393).  The top
panel is the camera, the bottom panel the game. -/
def planFromRequest (gRatioRaw : ℚ) (autoSplit : Bool) (game camera : RectIn) : LayoutPlan :=
  computeHeights autoSplit (clampRect camera) (clampRect game) (clamp01 gRatioRaw)

lemma pyRound_intCast (n : ℤ) : pyRound (n : ℚ) = n := by
  simp [pyRound]

lemma clamp01_nonneg (v : ℚ) : 0 ≤ clamp01 v := le_max_left 0 _

lemma clamp01_le_one (v : ℚ) : clamp01 v ≤ 1 := by
  unfold clamp01
  rcases le_total 1 v with h | h <;> simp [min_def, max_def, h] <;> split <;> linarith

/-- `pyRound q ≤ n` whenever `q ≤ n`. -/
lemma pyRound_le_of_le (q : ℚ) (n : ℤ) (h : q ≤ (n : ℚ)) : pyRound q ≤ n := by
  have hfl : ⌊q⌋ ≤ n := by exact_mod_cast (Int.floor_le q).trans h
  unfold pyRound
  split
  · exact hfl
  · rename_i h1
    push_neg at h1
    have hlt : ⌊q⌋ < n := by
      rcases lt_or_eq_of_le hfl with h' | h'
      · exact h'
      · exfalso
        have hq : q - (⌊q⌋ : ℚ) ≤ 0 := by
          rw [h']
          linarith
        linarith
    split
    · omega
    · split <;> omega

/-- `0 ≤ pyRound q` whenever `0 ≤ q`. -/
lemma pyRound_nonneg (q : ℚ) (h : 0 ≤ q) : 0 ≤ pyRound q := by
  have h0 : (0 : ℤ) ≤ ⌊q⌋ := Int.floor_nonneg.mpr h
  unfold pyRound
  split
  · exact h0
  · split
    · omega
    · split <;> omega

lemma pAspect_pos (a : ℚ) : 0 < pAspect a := by
  unfold pAspect
  split
  · norm_num
  · rename_i h
    push_neg at h
    positivity

lemma heightFrac_le_one (autoSplit : Bool) (cam game : RectIn) (gRatio : ℚ)
    (h0 : 0 ≤ gRatio) : heightFrac autoSplit cam game gRatio ≤ 1 := by
  unfold heightFrac
  split
  · have hc := pAspect_pos (cam.w / cam.h)
    have hg := pAspect_pos (game.w / game.h)
    rw [div_le_one (by linarith)]
    linarith
  · linarith

lemma fixHeights_topH (p : ℤ × ℤ) :
    (fixHeights p).topH = if p.1 % 2 ≠ 0 then p.1 + 1 else p.1 := rfl

/-- The final bottom height is always `1920 - topH` (the last fixup of
main.py:1391-1393 enforces the exact sum). -/
lemma fixHeights_botH (p : ℤ × ℤ) :
    (fixHeights p).botH = 1920 - (fixHeights p).topH := by
  unfold fixHeights
  dsimp only
  split_ifs <;> omega

lemma fixHeights_spec (p : ℤ × ℤ) (h1 : 2 ≤ p.1) (h2 : p.1 ≤ 1920) :
    (fixHeights p).topH + (fixHeights p).botH = 1920 ∧
    2 ∣ (fixHeights p).topH ∧ 2 ∣ (fixHeights p).botH ∧
    2 ≤ (fixHeights p).topH ∧ (fixHeights p).topH ≤ 1920 ∧
    0 ≤ (fixHeights p).botH := by
  rw [fixHeights_botH, fixHeights_topH]
  split_ifs <;> refine ⟨by omega, by omega, by omega, by omega, by omega, by omega⟩

lemma rawHeights_bounds (autoSplit : Bool) (cam game : RectIn) (gRatio : ℚ)
    (h0 : 0 ≤ gRatio) :
    2 ≤ (rawHeights autoSplit cam game gRatio).1 ∧
    (rawHeights autoSplit cam game gRatio).1 ≤ 1920 := by
  unfold rawHeights
  refine ⟨le_max_left _ _, max_le (by omega) ?_⟩
  apply pyRound_le_of_le
  have hf := heightFrac_le_one autoSplit cam game gRatio h0
  push_cast
  nlinarith

lemma clampRect_full : clampRect fullRect = fullRect := by
  unfold clampRect fullRect clamp01
  norm_num

lemma plan_ratio_07 : planFromRequest (7/10) false fullRect fullRect = ⟨576, 1344⟩ := by
  have hc : clampRect fullRect = fullRect := clampRect_full
  have hr : clamp01 ((7:ℚ)/10) = 7/10 := by
    unfold clamp01
    norm_num [min_def, max_def]
  have hf : heightFrac false fullRect fullRect (7/10) = 3/10 := by
    unfold heightFrac
    norm_num
  have hraw : rawHeights false fullRect fullRect (7/10) = (576, 1344) := by
    unfold rawHeights
    rw [hf]
    have h5 : (1920 * ((3:ℚ)/10)) = ((576:ℤ) : ℚ) := by norm_num
    rw [h5, pyRound_intCast]
    norm_num
  unfold planFromRequest computeHeights
  rw [hc, hr, hraw]
  decide

lemma plan_ratio_00 : planFromRequest 0 false fullRect fullRect = ⟨1920, 0⟩ := by
  have hc : clampRect fullRect = fullRect := clampRect_full
  have hr : clamp01 (0:ℚ) = 0 := by
    unfold clamp01
    norm_num
  have hf : heightFrac false fullRect fullRect 0 = 1 := by
    unfold heightFrac
    norm_num
  have hraw : rawHeights false fullRect fullRect 0 = (1920, 2) := by
    unfold rawHeights
    rw [hf]
    have h5 : ((1920:ℚ) * 1) = ((1920:ℤ) : ℚ) := by norm_num
    rw [h5, pyRound_intCast]
    norm_num
  unfold planFromRequest computeHeights
  rw [hc, hr, hraw]
  decide

/-- Claim C2 (counterexample): at `ratio = 0` (after clamping, a legal value
in `[0,1]`) with default full-frame crops, the computed plan is
`topHeight = 1920`, `bottomHeight = 0` — the heights sum to 1920 but the
bottom height is not positive, so the claim "both heights are positive"
fails. -/
theorem layout_claim_fails_at_ratio_zero :
    (planFromRequest 0 false fullRect fullRect).topH +
      (planFromRequest 0 false fullRect fullRect).botH = 1920 ∧
    ¬ (0 < (planFromRequest 0 false fullRect fullRect).botH) := by
  rw [plan_ratio_00]
  decide

/-- Claim C2 (corrected): for every render request (any ratio, any crops,
after clamping) the layout plan satisfies `topHeight + bottomHeight = 1920`,
both heights are even, the top height lies in `[2, 1920]`, and
`bottomHeight = 1920 - topHeight ≥ 0`; the bottom height can be zero (it is
positive exactly when `topHeight < 1920`, which fails e.g. at ratio 0). -/
theorem layout_plan_sum_even (gRatioRaw : ℚ) (autoSplit : Bool) (game camera : RectIn) :
    (planFromRequest gRatioRaw autoSplit game camera).topH +
      (planFromRequest gRatioRaw autoSplit game camera).botH = 1920 ∧
    2 ∣ (planFromRequest gRatioRaw autoSplit game camera).topH ∧
    2 ∣ (planFromRequest gRatioRaw autoSplit game camera).botH ∧
    2 ≤ (planFromRequest gRatioRaw autoSplit game camera).topH ∧
    (planFromRequest gRatioRaw autoSplit game camera).topH ≤ 1920 ∧
    (planFromRequest gRatioRaw autoSplit game camera).botH =
      1920 - (planFromRequest gRatioRaw autoSplit game camera).topH := by
  unfold planFromRequest computeHeights
  have h0 : 0 ≤ clamp01 gRatioRaw := clamp01_nonneg gRatioRaw
  have hb := rawHeights_bounds autoSplit (clampRect camera) (clampRect game) (clamp01 gRatioRaw) h0
  have hs := fixHeights_spec _ hb.1 hb.2
  obtain ⟨s1, s2, s3, s4, s5, s6⟩ := hs
  exact ⟨s1, s2, s3, s4, s5, by omega⟩

/-- Claim C9 (confirmed): a render request with `ratio = 0.7` and no crops
specified (full-frame defaults) yields, in manual mode, a camera (top)
panel of 576 px and a game (bottom) panel of 1344 px, both even, summing to
1920. -/
theorem layout_ratio_seven_tenths :
    (planFromRequest (7/10) false fullRect fullRect).topH = 576 ∧
    (planFromRequest (7/10) false fullRect fullRect).botH = 1344 ∧
    2 ∣ (planFromRequest (7/10) false fullRect fullRect).topH ∧
    2 ∣ (planFromRequest (7/10) false fullRect fullRect).botH ∧
    (planFromRequest (7/10) false fullRect fullRect).topH +
      (planFromRequest (7/10) false fullRect fullRect).botH = 1920 := by
  rw [plan_ratio_07]
  decide

/-! ## Caption censorship (script.py:51-55) -/

/-- `censor_token` (script.py:51-55) on the token's characters:
length ≤ 2 → all `*`; length ≤ 4 → first char then `*`s; otherwise first
char, `*`s, last char. -/
def censor_token (token : List Char) : List Char :=
  if token.length ≤ 2 then List.replicate token.length '*'
  else if token.length ≤ 4 then token.headI :: List.replicate (token.length - 1) '*'
  else token.headI :: (List.replicate (token.length - 2) '*' ++ [token.getLastD ' '])

lemma censor_short {t : List Char} (h : t.length ≤ 2) :
    censor_token t = List.replicate t.length '*' := by
  unfold censor_token
  rw [if_pos h]

lemma censor_mid {t : List Char} (h3 : 3 ≤ t.length) (h4 : t.length ≤ 4) :
    censor_token t = t.headI :: List.replicate (t.length - 1) '*' := by
  unfold censor_token
  rw [if_neg (by omega), if_pos h4]

lemma censor_long {t : List Char} (h5 : 5 ≤ t.length) :
    censor_token t = t.headI :: (List.replicate (t.length - 2) '*' ++ [t.getLastD ' ']) := by
  unfold censor_token
  rw [if_neg (by omega), if_neg (by omega)]

lemma censor_token_length (t : List Char) : (censor_token t).length = t.length := by
  rcases le_or_lt t.length 2 with h | h
  · rw [censor_short h]
    simp
  · rcases le_or_lt t.length 4 with h4 | h4
    · rw [censor_mid (by omega) h4]
      simp
      omega
    · rw [censor_long (by omega)]
      simp
      omega

/-- Claim C5 (confirmed): the censorship mask is idempotent and
length-preserving, and follows the policy — length ≤ 2 fully masked;
length 3..4 keeps only the first character; length > 4 keeps the first and
last characters with every middle character masked. -/
theorem censor_token_idempotent_policy (t : List Char) :
    censor_token (censor_token t) = censor_token t ∧
    (censor_token t).length = t.length ∧
    (t.length ≤ 2 → ∀ c ∈ censor_token t, c = '*') ∧
    (3 ≤ t.length → t.length ≤ 4 →
      (censor_token t).headI = t.headI ∧ ∀ c ∈ (censor_token t).tail, c = '*') ∧
    (5 ≤ t.length →
      (censor_token t).headI = t.headI ∧
      (censor_token t).getLastD ' ' = t.getLastD ' ' ∧
      ∀ c ∈ (censor_token t).tail.dropLast, c = '*') := by
  have hlen := censor_token_length t
  refine ⟨?_, hlen, ?_, ?_, ?_⟩
  · rcases le_or_lt t.length 2 with h | h
    · rw [censor_short h, censor_short (by simpa using h)]
      simp
    · rcases le_or_lt t.length 4 with h4 | h4
      · rw [censor_mid (by omega) h4]
        have hu : (t.headI :: List.replicate (t.length - 1) '*').length = t.length := by
          simp
          omega
        rw [censor_mid (by omega) (by omega ), hu]
        simp
      · rw [censor_long (by omega)]
        have hu : (t.headI :: (List.replicate (t.length - 2) '*' ++ [t.getLastD ' '])).length
            = t.length := by
          simp
          omega
        rw [censor_long (by omega), hu]
        have hl : (t.headI :: (List.replicate (t.length - 2) '*' ++ [t.getLastD ' '])).getLastD ' '
            = t.getLastD ' ' := by
          rw [show t.headI :: (List.replicate (t.length - 2) '*' ++ [t.getLastD ' '])
              = (t.headI :: List.replicate (t.length - 2) '*') ++ [t.getLastD ' '] by simp,
            List.getLastD_concat]
        rw [hl]
        simp
  · intro h c hc
    rw [censor_short h] at hc
    exact List.eq_of_mem_replicate hc
  · intro h3 h4
    rw [censor_mid h3 h4]
    exact ⟨rfl, fun c hc => List.eq_of_mem_replicate (by simpa using hc)⟩
  · intro h5
    rw [censor_long h5]
    refine ⟨rfl, ?_, ?_⟩
    · rw [show t.headI :: (List.replicate (t.length - 2) '*' ++ [t.getLastD ' '])
          = (t.headI :: List.replicate (t.length - 2) '*') ++ [t.getLastD ' '] by simp,
        List.getLastD_concat]
    · intro c hc
      simp only [List.tail_cons, List.dropLast_concat] at hc
      exact List.eq_of_mem_replicate hc

/-- Claim C5 witness: the policy theorem applied at the concrete token
`hello`. -/
theorem censor_token_policy_witness :
    censor_token (censor_token ['h', 'e', 'l', 'l', 'o']) =
      censor_token ['h', 'e', 'l', 'l', 'o'] ∧
    (censor_token ['h', 'e', 'l', 'l', 'o']).headI =
      (['h', 'e', 'l', 'l', 'o'] : List Char).headI := by
  refine ⟨(censor_token_idempotent_policy _).1, ?_⟩
  exact ((censor_token_idempotent_policy ['h', 'e', 'l', 'l', 'o']).2.2.2.2 (by decide)).1

/-! ## Dominant speaker (script.py:219-220, also main.py:1781-1782) -/

/-- Python `max(iterable, key=key)`: iterates in order, replacing the
current maximum only on a strictly greater key, so the FIRST element with
maximal key in iteration order wins. -/
def pyMaxBy (key : String → ℕ) : List String → Option String
  | [] => none
  | x :: xs => some (xs.foldl (fun b a => if key b < key a then a else b) x)

/-- `main_speaker = max(set(speakers), key=speakers.count) if speakers else
"SPEAKER_00"` (script.py:220).  CPython set iteration order is hash-based
and unspecified, so it is modelled by `order`, an arbitrary duplicate-free
enumeration of the distinct labels. -/
def main_speaker (order : List String) (speakers : List String) : String :=
  if speakers.isEmpty then "SPEAKER_00"
  else (pyMaxBy (fun s => speakers.count s) order).getD "SPEAKER_00"

/-- Modelled from the spec's words, for comparison with `main_speaker`:
"ties broken by first-seen-max, i.e. stable max over a multiset" — a stable
maximum over the labels in token order, so the tied label appearing first in
token order wins. -/
def firstSeenMax (speakers : List String) : String :=
  (pyMaxBy (fun s => speakers.count s) speakers).getD "SPEAKER_00"

lemma pyFold_mem (key : String → ℕ) :
    ∀ (xs : List String) (x : String),
      xs.foldl (fun b a => if key b < key a then a else b) x ∈ x :: xs := by
  intro xs
  induction xs with
  | nil => simp
  | cons y ys ih =>
    intro x
    simp only [List.foldl_cons]
    have h1 := ih (if key x < key y then y else x)
    rcases List.mem_cons.mp h1 with h | h
    · rw [h]
      split <;> simp
    · simp [h]

lemma pyFold_ge (key : String → ℕ) :
    ∀ (xs : List String) (x a : String), a ∈ x :: xs →
      key a ≤ key (xs.foldl (fun b a => if key b < key a then a else b) x) := by
  intro xs
  induction xs with
  | nil =>
    intro x a ha
    simp at ha
    simp [ha]
  | cons y ys ih =>
    intro x a ha
    simp only [List.foldl_cons]
    have hstep : key x ≤ key (if key x < key y then y else x) ∧
        key y ≤ key (if key x < key y then y else x) := by
      split <;> rename_i h <;> constructor <;> omega
    rcases List.mem_cons.mp ha with h | h
    · subst h
      exact le_trans hstep.1 (ih _ _ (List.mem_cons_self _ _))
    · rcases List.mem_cons.mp h with h' | h'
      · subst h'
        exact le_trans hstep.2 (ih _ _ (List.mem_cons_self _ _))
      · exact ih _ a (List.mem_cons_of_mem _ h')

/-- Claim C6 (counterexample): for a segment whose tokens carry speakers
`[SPEAKER_00, SPEAKER_01]` (a count tie), the legal set iteration order
`[SPEAKER_01, SPEAKER_00]` — a permutation of the distinct labels, as the
`List.Perm` conjunct records — makes the code pick `SPEAKER_01`, not the
first-seen label `SPEAKER_00` the claim requires. -/
theorem main_speaker_tie_not_first_seen :
    List.Perm ["SPEAKER_01", "SPEAKER_00"] ["SPEAKER_00", "SPEAKER_01"] ∧
    (["SPEAKER_01", "SPEAKER_00"] : List String).Nodup ∧
    main_speaker ["SPEAKER_01", "SPEAKER_00"] ["SPEAKER_00", "SPEAKER_01"] = "SPEAKER_01" ∧
    firstSeenMax ["SPEAKER_00", "SPEAKER_01"] = "SPEAKER_00" ∧
    main_speaker ["SPEAKER_01", "SPEAKER_00"] ["SPEAKER_00", "SPEAKER_01"] ≠
      firstSeenMax ["SPEAKER_00", "SPEAKER_01"] := by
  refine ⟨by decide, by decide, by decide, by decide, by decide⟩

/-- Claim C6 (corrected): for every non-empty token list and every legal
set-iteration order (an enumeration of exactly the occurring labels), the
chosen dominant speaker is one of the segment's labels and occurs at least
as often as every label; ties, however, are resolved by the set's iteration
order, not necessarily by first appearance in token order. -/
theorem main_speaker_majority (speakers order : List String)
    (hne : speakers ≠ []) (hmem : ∀ s, s ∈ order ↔ s ∈ speakers) :
    main_speaker order speakers ∈ speakers ∧
    ∀ s ∈ speakers, speakers.count s ≤ speakers.count (main_speaker order speakers) := by
  have hnilb : speakers.isEmpty = false := by
    cases speakers with
    | nil => exact absurd rfl hne
    | cons a l => rfl
  cases order with
  | nil =>
    exfalso
    cases speakers with
    | nil => exact hne rfl
    | cons a l =>
      have := (hmem a).mpr (List.mem_cons_self a l)
      simp at this
  | cons o os =>
    unfold main_speaker
    rw [hnilb]
    simp only [Bool.false_eq_true, if_false, pyMaxBy, Option.getD_some]
    constructor
    · exact (hmem _).mp (pyFold_mem (fun s => speakers.count s) os o)
    · intro s hs
      exact pyFold_ge (fun s => speakers.count s) os o s ((hmem s).mpr hs)

/-- Claim C6 witness: the majority theorem applied at a concrete
one-speaker segment. -/
theorem main_speaker_majority_witness :
    main_speaker ["SPEAKER_00"] ["SPEAKER_00"] ∈ (["SPEAKER_00"] : List String) :=
  (main_speaker_majority ["SPEAKER_00"] ["SPEAKER_00"]
    (by decide) (fun _ => Iff.rfl)).1

/-! ## Karaoke overlay CLI (script.py:184-277) -/

/-- A word-level transcript token (`segments[].words[]`); `stop` models the
Python field `end`, in absolute source-clip seconds. -/
structure WordTok where
  word : String
  start : ℚ
  stop : ℚ
  speaker : Option String
deriving DecidableEq

instance : Inhabited WordTok := ⟨⟨"", 0, 0, none⟩⟩

/-- A transcription segment; only its `words` list is consumed by the
overlay. -/
structure Seg where
  words : List WordTok
deriving DecidableEq

/-- Python `str.strip()`: drop whitespace from both ends. -/
def pyStrip (l : List Char) : List Char :=
  ((l.dropWhile (·.isWhitespace)).reverse.dropWhile (·.isWhitespace)).reverse

/-- `w['word'].strip().endswith(('.', ',', '?', '!'))` (script.py:188). -/
def endsPunct (s : String) : Bool :=
  match (pyStrip s.toList).getLast? with
  | some c => c == '.' || c == ',' || c == '?' || c == '!'
  | none => false

/-- `_split_on_punct` (script.py:184-191): accumulate words, closing a chunk
after each punctuation-terminated word; a trailing unterminated chunk is
kept. -/
def split_on_punct (ws : List WordTok) : List (List WordTok) :=
  let r := ws.foldl
    (fun (acc : List (List WordTok) × List WordTok) w =>
      let cur := acc.2 ++ [w]
      if endsPunct w.word then (acc.1 ++ [cur], []) else (acc.1, cur))
    ([], [])
  if r.2.isEmpty then r.1 else r.1 ++ [r.2]

lemma split_on_punct_foldl (ws : List WordTok) :
    ∀ (acc : List (List WordTok)) (cur : List WordTok),
      (ws.foldl
        (fun (acc : List (List WordTok) × List WordTok) w =>
          let cur := acc.2 ++ [w]
          if endsPunct w.word then (acc.1 ++ [cur], []) else (acc.1, cur))
        (acc, cur)).1.flatten ++
      (ws.foldl
        (fun (acc : List (List WordTok) × List WordTok) w =>
          let cur := acc.2 ++ [w]
          if endsPunct w.word then (acc.1 ++ [cur], []) else (acc.1, cur))
        (acc, cur)).2
      = acc.flatten ++ cur ++ ws := by
  induction ws with
  | nil => simp
  | cons w ws ih =>
    intro acc cur
    simp only [List.foldl_cons]
    by_cases h : endsPunct w.word
    · rw [if_pos h]
      rw [ih]
      simp
    · rw [if_neg h]
      rw [ih]
      simp

/-- Splitting on punctuation loses no word: the chunks flatten back to the
input. -/
lemma split_on_punct_flatten (ws : List WordTok) :
    (split_on_punct ws).flatten = ws := by
  unfold split_on_punct
  have h := split_on_punct_foldl ws [] []
  set r := ws.foldl
    (fun (acc : List (List WordTok) × List WordTok) w =>
      let cur := acc.2 ++ [w]
      if endsPunct w.word then (acc.1 ++ [cur], []) else (acc.1, cur))
    ([], []) with hr
  simp only [List.flatten_nil, List.nil_append] at h
  by_cases he : r.2.isEmpty
  · rw [if_pos he]
    rw [List.isEmpty_iff] at he
    rw [he, List.append_nil] at h
    exact h
  · rw [if_neg he]
    rw [List.flatten_append]
    simpa using h

lemma split_on_punct_ne_nil {ws : List WordTok} (h : ws ≠ []) :
    split_on_punct ws ≠ [] := by
  intro hc
  apply h
  have := split_on_punct_flatten ws
  rw [hc] at this
  simpa using this.symm

/-- The speaker color palette (script.py:71). -/
def SPEAKER_COLORS : List String :=
  ["yellow", "cyan", "magenta", "lime", "orange", "deepskyblue", "violet", "salmon"]

/-- `get_speaker_color` (script.py:72-77): parse the numeric index out of
the label (0 on failure), then index the palette cyclically. -/
def get_speaker_color (speaker : String) : String :=
  let idx : ℤ := ((speaker.replace "SPEAKER_" "").toInt?).getD 0
  (SPEAKER_COLORS.get? (idx % 8).toNat).getD ""

/-- An animated caption clip as built by `make_karaoke_clip`
(script.py:102-178): the punctuation chunk it renders, its start/end on the
output timeline, and the highlight color.  Frame rasterization (fonts,
pixels) is outside the model. -/
structure KClip where
  sub : List WordTok
  segStart : ℚ
  segStop : ℚ
  color : String
deriving DecidableEq

/-- The caption clips built by `apply_karaoke_overlay` (script.py:215-230):
for every transcription segment with a non-empty word list, one clip per
punctuation chunk, with `seg_start = max(0, sub[0].start - offset)` and
`seg_end = max(seg_start, sub[-1].end - offset)`; the color comes from the
segment-level dominant speaker.  `setOrder` supplies the CPython set
iteration order consumed by the dominant-speaker vote. -/
def clipsOf (setOrder : List String → List String) (segments : List Seg)
    (offset : ℚ) : List KClip :=
  segments.flatMap (fun seg =>
    if seg.words.isEmpty then []
    else
      let speakers := seg.words.map (fun w => w.speaker.getD "SPEAKER_00")
      let color := get_speaker_color (main_speaker (setOrder speakers) speakers)
      (split_on_punct seg.words).map (fun sub =>
        let s := max 0 (sub.headI.start - offset)
        let e := max s ((sub.getLastD default).stop - offset)
        ⟨sub, s, e, color⟩))

lemma clipsOf_eq_nil_iff (setOrder : List String → List String)
    (segments : List Seg) (offset : ℚ) :
    clipsOf setOrder segments offset = [] ↔ segments.flatMap Seg.words = [] := by
  unfold clipsOf
  rw [List.flatMap_eq_nil_iff, List.flatMap_eq_nil_iff]
  constructor
  · intro h seg hseg
    have := h seg hseg
    by_cases hw : seg.words.isEmpty
    · exact List.isEmpty_iff.mp hw
    · rw [if_neg hw] at this
      simp only [List.map_eq_nil_iff] at this
      exact absurd this (split_on_punct_ne_nil (fun hc => hw (by rw [hc]; rfl)))
  · intro h seg hseg
    have hw : seg.words.isEmpty = true := List.isEmpty_iff.mpr (h seg hseg)
    rw [if_pos hw]

/-- Filesystem effects of the overlay step: `write` is the non-atomic
`write_videofile`, `replace` is `os.replace`, `remove` is `os.remove`.
Only operations that actually took effect are recorded. -/
inductive FileOp where
  | write (path : String) (content : ℕ)
  | replace (src dst : String)
  | remove (path : String)
deriving DecidableEq

/-- One filesystem step; file contents are abstracted as natural numbers. -/
def applyOp (fs : String → Option ℕ) : FileOp → (String → Option ℕ)
  | .write p v => fun q => if q = p then some v else fs q
  | .replace src dst => fun q =>
      match fs src with
      | some v => if q = dst then some v else if q = src then none else fs q
      | none => fs q
  | .remove p => fun q => if q = p then none else fs q

def runOps (ops : List FileOp) (fs : String → Option ℕ) : String → Option ℕ :=
  ops.foldl applyOp fs

/-- `apply_karaoke_overlay` (script.py:193-277): decision logic and
filesystem effects.  `segments` is the parsed JSON (the read is assumed to
succeed; a read failure returns 3 with no effects and is outside this
model), `newV` stands for the bytes of the composited video, `writeOk` for
whether `write_videofile` succeeds and `replaceOk` for whether `os.replace`
succeeds.  Returns the process exit code — an uncaught `write_videofile`
exception terminates the interpreter with exit code 1, leaving the partial
temporary in place — together with the applied effects. -/
def apply_karaoke_overlay (setOrder : List String → List String)
    (segments : List Seg) (offset : ℚ)
    (input_path : String) (output_path : Option String) (newV : ℕ)
    (writeOk replaceOk : Bool) : ℤ × List FileOp :=
  if segments.isEmpty then (2, [])
  else if (clipsOf setOrder segments offset).isEmpty then (4, [])
  else
    let target := output_path.getD input_path
    let tmp := target ++ ".karaoke.tmp.mp4"
    if writeOk then
      if replaceOk then (0, [.write tmp newV, .replace tmp target])
      else (5, [.write tmp newV, .remove tmp])
    else (1, [.write tmp newV])

/-- The karaoke caption status recorded by `api_render`
(main.py:1648-1659) from the CLI's exit code. -/
def karaoke_cli_status (rc : ℤ) : String :=
  if rc = 0 then "applied"
  else "skipped: karaoke cli failed rc=" ++ toString rc

/-- The transcript words remaining inside the output window `[0, duration]`
after shifting every token by `-offset` (the filter of main.py:1726-1748
with no end limit): drop words ending at or before 0, clip the rest into
the window, drop empty spans. -/
def wordsInWindow (segments : List Seg) (offset duration : ℚ) : List WordTok :=
  segments.flatMap (fun seg => seg.words.filterMap (fun w =>
    let s := w.start - offset
    let e := w.stop - offset
    if e ≤ 0 then none
    else
      let s2 := max 0 s
      let e2 := min duration e
      if e2 - s2 ≤ 0 then none
      else some { w with start := s2, stop := e2 }))

/-- Substring containment, for skip-reason texts. -/
def strContains (needle hay : String) : Prop := needle.toList <:+: hay.toList

instance (needle hay : String) : Decidable (strContains needle hay) :=
  List.decidableInfix _ _

lemma self_ne_append_tmp (s : String) : s ≠ s ++ ".karaoke.tmp.mp4" := by
  intro h
  have hlen := congrArg String.length h
  rw [String.length_append] at hlen
  have h16 : (".karaoke.tmp.mp4" : String).length = 16 := rfl
  omega

lemma clips_isEmpty_false {setOrder : List String → List String}
    {segments : List Seg} {offset : ℚ}
    (h : segments.flatMap Seg.words ≠ []) :
    ¬ ((clipsOf setOrder segments offset).isEmpty = true) := by
  intro hc
  exact h ((clipsOf_eq_nil_iff setOrder segments offset).mp (List.isEmpty_iff.mp hc))

/-- Full behavioural specification of the overlay's filesystem handling;
shared by several theorems below. -/
lemma apply_karaoke_overlay_spec (setOrder : List String → List String)
    (segments : List Seg) (offset : ℚ) (input : String) (output : Option String)
    (newV : ℕ) (writeOk replaceOk : Bool) (fs : String → Option ℕ) :
    (∀ v, FileOp.write (output.getD input) v ∉
      (apply_karaoke_overlay setOrder segments offset input output newV writeOk replaceOk).2) ∧
    (FileOp.replace (output.getD input ++ ".karaoke.tmp.mp4") (output.getD input) ∈
        (apply_karaoke_overlay setOrder segments offset input output newV writeOk replaceOk).2 ↔
      (apply_karaoke_overlay setOrder segments offset input output newV writeOk replaceOk).1 = 0) ∧
    ((apply_karaoke_overlay setOrder segments offset input output newV writeOk replaceOk).1 = 0 ↔
      segments.flatMap Seg.words ≠ [] ∧ writeOk = true ∧ replaceOk = true) ∧
    ((apply_karaoke_overlay setOrder segments offset input output newV writeOk replaceOk).1 = 0 →
      runOps (apply_karaoke_overlay setOrder segments offset input output newV writeOk replaceOk).2
        fs (output.getD input) = some newV) ∧
    ((apply_karaoke_overlay setOrder segments offset input output newV writeOk replaceOk).1 ≠ 0 →
      runOps (apply_karaoke_overlay setOrder segments offset input output newV writeOk replaceOk).2
        fs (output.getD input) = fs (output.getD input)) ∧
    (segments.flatMap Seg.words ≠ [] → writeOk = true → replaceOk = false →
      FileOp.remove (output.getD input ++ ".karaoke.tmp.mp4") ∈
        (apply_karaoke_overlay setOrder segments offset input output newV writeOk replaceOk).2) := by
  set target := output.getD input with htarget
  have hne := self_ne_append_tmp target
  by_cases h1 : segments.isEmpty
  · have hflat : segments.flatMap Seg.words = [] := by
      rw [List.isEmpty_iff.mp h1]
      rfl
    unfold apply_karaoke_overlay
    rw [if_pos h1]
    refine ⟨by simp, by simp, by simp [hflat], by simp, fun _ => rfl, fun h => absurd hflat h⟩
  · by_cases h2 : (clipsOf setOrder segments offset).isEmpty
    · have hflat : segments.flatMap Seg.words = [] :=
        (clipsOf_eq_nil_iff setOrder segments offset).mp (List.isEmpty_iff.mp h2)
      unfold apply_karaoke_overlay
      rw [if_neg h1, if_pos h2]
      refine ⟨by simp, by simp, by simp [hflat], by simp, fun _ => rfl, fun h => absurd hflat h⟩
    · have hflat : segments.flatMap Seg.words ≠ [] := by
        intro hc
        exact h2 (List.isEmpty_iff.mpr ((clipsOf_eq_nil_iff setOrder segments offset).mpr hc))
      unfold apply_karaoke_overlay
      rw [if_neg h1, if_neg h2]
      by_cases hw : writeOk
      · by_cases hr : replaceOk
        · rw [if_pos hw, if_pos hr]
          refine ⟨?_, by simp, by simp [hflat, hw, hr], ?_, by simp, by simp [hr]⟩
          · intro v hv
            simp at hv
            exact hne hv.1
          · intro _
            simp [runOps, applyOp, hne]
        · rw [if_pos hw, if_neg hr]
          refine ⟨?_, by simp, by simp [hflat, hw, hr], by simp, ?_, by simp⟩
          · intro v hv
            simp at hv
            exact hne hv.1
          · intro _
            simp [runOps, applyOp, hne]
      · rw [if_neg hw]
        refine ⟨?_, by simp, by simp [hflat, hw], by simp, ?_, fun _ h' => absurd h' hw⟩
        · intro v hv
          simp at hv
          exact hne hv.1
        · intro _
          simp [runOps, applyOp, hne]

/-- Claim C7 (corrected): the overlay never writes the final artifact path
directly — every write targets the temporary `<target>.karaoke.tmp.mp4` —
the atomic replace happens exactly on full success (in which case the
artifact holds the composited video), on every failure the prior artifact is
untouched, and the temporary is removed on a replace failure.  On a
compositing (write) failure, however, no removal is attempted (see the
counterexample). -/
theorem karaoke_overlay_atomic (setOrder : List String → List String)
    (segments : List Seg) (offset : ℚ) (input : String) (output : Option String)
    (newV : ℕ) (writeOk replaceOk : Bool) (fs : String → Option ℕ) :
    (∀ v, FileOp.write (output.getD input) v ∉
      (apply_karaoke_overlay setOrder segments offset input output newV writeOk replaceOk).2) ∧
    (FileOp.replace (output.getD input ++ ".karaoke.tmp.mp4") (output.getD input) ∈
        (apply_karaoke_overlay setOrder segments offset input output newV writeOk replaceOk).2 ↔
      (apply_karaoke_overlay setOrder segments offset input output newV writeOk replaceOk).1 = 0) ∧
    ((apply_karaoke_overlay setOrder segments offset input output newV writeOk replaceOk).1 = 0 ↔
      segments.flatMap Seg.words ≠ [] ∧ writeOk = true ∧ replaceOk = true) ∧
    ((apply_karaoke_overlay setOrder segments offset input output newV writeOk replaceOk).1 = 0 →
      runOps (apply_karaoke_overlay setOrder segments offset input output newV writeOk replaceOk).2
        fs (output.getD input) = some newV) ∧
    ((apply_karaoke_overlay setOrder segments offset input output newV writeOk replaceOk).1 ≠ 0 →
      runOps (apply_karaoke_overlay setOrder segments offset input output newV writeOk replaceOk).2
        fs (output.getD input) = fs (output.getD input)) ∧
    (segments.flatMap Seg.words ≠ [] → writeOk = true → replaceOk = false →
      FileOp.remove (output.getD input ++ ".karaoke.tmp.mp4") ∈
        (apply_karaoke_overlay setOrder segments offset input output newV writeOk replaceOk).2) :=
  apply_karaoke_overlay_spec setOrder segments offset input output newV writeOk replaceOk fs

/-- Claim C7 witness: on a one-word transcript with both the write and the
replace succeeding, the artifact ends up holding the composited video. -/
theorem karaoke_overlay_atomic_witness :
    runOps (apply_karaoke_overlay id [⟨[⟨"ok.", 0, 1, none⟩]⟩] 0 "a.mp4" none 3 true true).2
      (fun _ => none) "a.mp4" = some 3 := by
  have h := karaoke_overlay_atomic id [⟨[⟨"ok.", 0, 1, none⟩]⟩] 0 "a.mp4" none 3 true true
    (fun _ => none)
  exact h.2.2.2.1 (h.2.2.1.mpr ⟨by simp, rfl, rfl⟩)

/-- Claim C7 (counterexample): when the compositing write fails on a
one-word transcript, the overlay exits with code 1 (a compositing failure),
its only recorded filesystem effect is the write of the temporary file — no
removal is attempted (script.py:242-260 has no cleanup on a
`write_videofile` exception) — so afterwards the temporary file still
exists while the artifact is untouched.  This falsifies the claim's "on any
compositing or replace failure ... the temporary file is removed"; the
artifact-untouched part survives. -/
theorem karaoke_write_failure_keeps_tmp :
    (apply_karaoke_overlay id [⟨[⟨"hi", 0, 1, none⟩]⟩] 0 "a.mp4" none 3 false true).1 = 1 ∧
    (apply_karaoke_overlay id [⟨[⟨"hi", 0, 1, none⟩]⟩] 0 "a.mp4" none 3 false true).2 =
      [FileOp.write "a.mp4.karaoke.tmp.mp4" 3] ∧
    runOps (apply_karaoke_overlay id [⟨[⟨"hi", 0, 1, none⟩]⟩] 0 "a.mp4" none 3 false true).2
      (fun _ => none) "a.mp4.karaoke.tmp.mp4" = some 3 ∧
    runOps (apply_karaoke_overlay id [⟨[⟨"hi", 0, 1, none⟩]⟩] 0 "a.mp4" none 3 false true).2
      (fun _ => none) "a.mp4" = none := by
  have heq : apply_karaoke_overlay id [⟨[⟨"hi", 0, 1, none⟩]⟩] 0 "a.mp4" none 3 false true
      = (1, [FileOp.write "a.mp4.karaoke.tmp.mp4" 3]) := by
    unfold apply_karaoke_overlay
    rw [if_neg (by simp), if_neg (clips_isEmpty_false (by simp)), if_neg (by simp)]
    rfl
  rw [heq]
  refine ⟨rfl, rfl, by simp [runOps, applyOp], by simp [runOps, applyOp]⟩

/-- Claim C3 (counterexample): a transcript whose single word `[0,1]` lies
entirely before the trim offset 10 has zero words in the output window
`[0, 5]`, yet the live caption path (the karaoke CLI, main.py:1630-1663 →
script.py:193-277) still builds a clip for it (clamping its times to 0),
exits 0, reports status `applied` — which does not contain "no words in
time window" — and REPLACES the artifact. -/
theorem karaoke_window_claim_cex :
    wordsInWindow [⟨[⟨"hi", 0, 1, some "SPEAKER_00"⟩]⟩] 10 5 = [] ∧
    (apply_karaoke_overlay id [⟨[⟨"hi", 0, 1, some "SPEAKER_00"⟩]⟩] 10 "v.mp4" none 7
      true true).1 = 0 ∧
    karaoke_cli_status
      (apply_karaoke_overlay id [⟨[⟨"hi", 0, 1, some "SPEAKER_00"⟩]⟩] 10 "v.mp4" none 7
        true true).1 = "applied" ∧
    ¬ strContains "no words in time window"
      (karaoke_cli_status
        (apply_karaoke_overlay id [⟨[⟨"hi", 0, 1, some "SPEAKER_00"⟩]⟩] 10 "v.mp4" none 7
          true true).1) ∧
    runOps (apply_karaoke_overlay id [⟨[⟨"hi", 0, 1, some "SPEAKER_00"⟩]⟩] 10 "v.mp4" none 7
      true true).2 (fun _ => none) "v.mp4" = some 7 := by
  have heq : apply_karaoke_overlay id [⟨[⟨"hi", 0, 1, some "SPEAKER_00"⟩]⟩] 10 "v.mp4" none 7
      true true = (0, [FileOp.write "v.mp4.karaoke.tmp.mp4" 7,
        FileOp.replace "v.mp4.karaoke.tmp.mp4" "v.mp4"]) := by
    unfold apply_karaoke_overlay
    rw [if_neg (by simp), if_neg (clips_isEmpty_false (by simp)), if_pos rfl, if_pos rfl]
    rfl
  have hwin : wordsInWindow [⟨[⟨"hi", 0, 1, some "SPEAKER_00"⟩]⟩] 10 5 = [] := by
    have hcond : ((1 : ℚ) - 10 ≤ 0) := by norm_num
    simp [wordsInWindow, hcond]
  rw [heq]
  refine ⟨hwin, rfl, by decide, by decide, by simp [runOps, applyOp]⟩

/-- Claim C3 (corrected): when the transcript has zero words inside
`[0, duration]` after offset-shifting, the live caption stage never reports
"no words in time window" (that message exists only in an unreachable
inline fallback, main.py:1750-1753; the CLI attempt at main.py:1630-1663
always returns first).  If the transcript contains at least one word (all
outside the window) and the write and replace succeed, the CLI exits 0,
the status is `applied`, and the artifact is replaced; only a transcript
with no words at all skips, leaving the artifact unchanged. -/
theorem karaoke_no_window_words (setOrder : List String → List String)
    (segments : List Seg) (offset duration : ℚ) (input : String)
    (newV : ℕ) (writeOk replaceOk : Bool) (fs : String → Option ℕ)
    (hwin : wordsInWindow segments offset duration = []) :
    ¬ strContains "no words in time window"
      (karaoke_cli_status
        (apply_karaoke_overlay setOrder segments offset input none newV writeOk replaceOk).1) ∧
    (segments.flatMap Seg.words ≠ [] → writeOk = true → replaceOk = true →
      (apply_karaoke_overlay setOrder segments offset input none newV writeOk replaceOk).1 = 0 ∧
      karaoke_cli_status
        (apply_karaoke_overlay setOrder segments offset input none newV writeOk replaceOk).1
        = "applied" ∧
      runOps (apply_karaoke_overlay setOrder segments offset input none newV writeOk replaceOk).2
        fs input = some newV) ∧
    (segments.flatMap Seg.words = [] →
      (apply_karaoke_overlay setOrder segments offset input none newV writeOk replaceOk).1 ≠ 0 ∧
      runOps (apply_karaoke_overlay setOrder segments offset input none newV writeOk replaceOk).2
        fs input = fs input) := by
  have h := apply_karaoke_overlay_spec setOrder segments offset input none newV writeOk replaceOk fs
  obtain ⟨_, _, hiff, hsucc, hfail, _⟩ := h
  refine ⟨?_, ?_, ?_⟩
  · by_cases h0 :
      (apply_karaoke_overlay setOrder segments offset input none newV writeOk replaceOk).1 = 0
    · rw [h0]
      decide
    · have h024 :
          (apply_karaoke_overlay setOrder segments offset input none newV writeOk replaceOk).1 = 0 ∨
          (apply_karaoke_overlay setOrder segments offset input none newV writeOk replaceOk).1 = 1 ∨
          (apply_karaoke_overlay setOrder segments offset input none newV writeOk replaceOk).1 = 2 ∨
          (apply_karaoke_overlay setOrder segments offset input none newV writeOk replaceOk).1 = 4 ∨
          (apply_karaoke_overlay setOrder segments offset input none newV writeOk replaceOk).1 = 5 := by
        unfold apply_karaoke_overlay
        split_ifs <;> simp
      rcases h024 with h' | h' | h' | h' | h'
      · exact absurd h' h0
      · rw [h']
        decide
      · rw [h']
        decide
      · rw [h']
        decide
      · rw [h']
        decide
  · intro hflat hw hr
    have h0 := hiff.mpr ⟨hflat, hw, hr⟩
    exact ⟨h0, by rw [h0]; rfl, hsucc h0⟩
  · intro hflat
    have h0 :
        (apply_karaoke_overlay setOrder segments offset input none newV writeOk replaceOk).1 ≠ 0 :=
      fun hc => (hiff.mp hc).1 hflat
    exact ⟨h0, hfail h0⟩

/-- Claim C3 witness: the corrected theorem applied at the concrete
out-of-window transcript of the counterexample's scenario. -/
theorem karaoke_no_window_words_witness :
    ¬ strContains "no words in time window"
      (karaoke_cli_status
        (apply_karaoke_overlay id [⟨[⟨"hi", 0, 1, some "SPEAKER_00"⟩]⟩] 10 "w.mp4" none 7
          true true).1) := by
  have hwin : wordsInWindow [⟨[⟨"hi", 0, 1, some "SPEAKER_00"⟩]⟩] 10 5 = [] := by
    have hcond : ((1 : ℚ) - 10 ≤ 0) := by norm_num
    simp [wordsInWindow, hcond]
  exact (karaoke_no_window_words id [⟨[⟨"hi", 0, 1, some "SPEAKER_00"⟩]⟩] 10 5 "w.mp4" 7
    true true (fun _ => none) hwin).1

/-! ## The render endpoint `api_render` (main.py:1296-1997) -/

/-- The parsed request body of POST /api/render after the `_parse_bool` /
`float(...)` coercions (main.py:1298-1343): `start`/`stop` hold
`float(data['start'])` / `float(data['end'])` when present and parseable,
`none` otherwise. -/
structure RenderReq where
  clip_id : String
  game : RectIn
  camera : RectIn
  game_ratio : ℚ
  auto_split : Bool
  fit_mode : String
  single_frame : Bool
  single_height_ratio : ℚ
  start : Option ℚ
  stop : Option ℚ
  include_subtitles : Bool

/-- `fit_mode` sanitization (main.py:1330-1332); lower-casing is assumed
done. -/
def sanitizeFitMode (s : String) : String :=
  if s = "contain" ∨ s = "cover" then s else "contain"

/-- The single-frame panel height (main.py:1340-1343): clamp the ratio into
`[0.05, 0.95]`, round, floor at 2, force even by growing. -/
def panelH (shrRaw : ℚ) : ℤ :=
  let shr := max (1/20) (min (19/20) shrRaw)
  let p := max 2 (pyRound (1920 * shr))
  if p % 2 ≠ 0 then p + 1 else p

/-- Trim start parsing (main.py:1475-1481): kept when `s ≥ 0`. -/
def parseStart (start : Option ℚ) : Option ℚ :=
  match start with
  | some s => if 0 ≤ s then some s else none
  | none => none

/-- Trim end parsing (main.py:1482-1488): kept when `e > 0`. -/
def parseStop (stop : Option ℚ) : Option ℚ :=
  match stop with
  | some e => if 0 < e then some e else none
  | none => none

/-- The `params` payload of a render-status record. -/
structure RenderParams where
  game : RectIn
  camera : RectIn
  game_ratio : ℚ
  auto_split : Bool
  single_frame : Bool
  single_height_ratio : ℚ
  fit_mode : String
  start : Option ℚ
  stop : Option ℚ
  include_subtitles : Option Bool

/-- One persisted render-status record (`_write_render_status`,
main.py:1115-1122); unused keys are `none`. -/
structure StatusWrite where
  clip_id : String
  state : String
  url : Option String
  error : Option String
  cmd : Option String
  karaoke : Option String
  params : Option RenderParams

/-- The state of the locals `ss` / `to` at a point of `api_render`: the
outer `none` means "not yet assigned", so that a read raises
`UnboundLocalError` in CPython. -/
structure TrimLocals where
  ss : Option (Option ℚ)
  toq : Option (Option ℚ)

/-- Evaluation of the `params` dict of the running-status write
(main.py:1409-1419).  It reads the locals `ss` and `to`; when either is
unbound the evaluation raises (returns `none`). -/
def runningParams (req : RenderReq) (gRatio shr : ℚ) (fitMode : String)
    (locals : TrimLocals) : Option RenderParams :=
  match locals.ss, locals.toq with
  | some s, some t =>
      some ⟨req.game, req.camera, gRatio, req.auto_split, req.single_frame, shr, fitMode,
        s, t, none⟩
  | _, _ => none

/-- The attempted `running` status write (main.py:1404-1422).  The write is
wrapped in `try/except Exception: pass`, so when the params evaluation
raises nothing is written at all. -/
def tryWriteRunning (req : RenderReq) (gRatio shr : ℚ) (fitMode : String)
    (locals : TrimLocals) : List StatusWrite :=
  match runningParams req gRatio shr fitMode locals with
  | some p => [⟨req.clip_id, "running", none, none, none, none, some p⟩]
  | none => []

/-- `get_data_path(*parts)` (main.py:87-88): a join under the data root,
modelled as the literal `DATA`. -/
def get_data_path (parts : List String) : String :=
  String.intercalate "/" ("DATA" :: parts)

def rstripChar (c : Char) (l : List Char) : List Char :=
  (l.reverse.dropWhile (· = c)).reverse

/-- The number formatter of main.py:1426:
`f'{v:.6f}'.rstrip('0').rstrip('.')`, for the non-negative crop values. -/
def fmt6 (v : ℚ) : String :=
  let n := pyRound (v * 1000000)
  let ip := n / 1000000
  let fp := (n % 1000000).toNat
  let digits := Nat.toDigits 10 fp
  let frac := List.replicate (6 - digits.length) '0' ++ digits
  let s := toString ip ++ "." ++ String.mk frac
  String.mk (rstripChar '.' (rstripChar '0' s.toList))

/-- The per-panel crop stage (main.py:1427-1428). -/
def cropExpr (r : RectIn) : String :=
  "crop=floor(iw*" ++ fmt6 r.w ++ "):floor(ih*" ++ fmt6 r.h ++ "):floor(iw*" ++
    fmt6 r.x ++ "):floor(ih*" ++ fmt6 r.y ++ ")"

/-- The filter graph of the primary render pass (main.py:1430-1463), for
the three layout modes (single-frame, contain, cover). -/
def filterComplex (singleFrame : Bool) (fitMode : String) (game camera : RectIn)
    (topH botH pH : ℤ) : String :=
  let crop_game := cropExpr game
  let crop_cam := cropExpr camera
  if singleFrame then
    let scale_bg := "scale=w='if(gt(a,1080/1920),-2,1080)':h='if(gt(a,1080/1920),1920,-2)'"
    let center_bg := "crop=1080:1920:floor((iw-1080)/2):floor((ih-1920)/2)"
    let scale_panel := "scale=w='if(gt(a,1080/" ++ toString pH ++ "),-2,1080)':h='if(gt(a,1080/"
      ++ toString pH ++ ")," ++ toString pH ++ ",-2)'"
    let center_panel := "crop=1080:" ++ toString pH ++ ":floor((iw-1080)/2):floor((ih-"
      ++ toString pH ++ ")/2)"
    "[0:v]" ++ crop_game ++ "," ++ scale_bg ++ "," ++ center_bg ++
      ",gblur=sigma=16,eq=brightness=-0.08[bg];[0:v]" ++ crop_game ++ "," ++ scale_panel ++
      "," ++ center_panel ++ "[panel];[bg][panel]overlay=x=0:y=(H-h)/2[outv]"
  else if fitMode = "contain" then
    let scale_cam := "scale=1080:" ++ toString topH ++
      ":force_original_aspect_ratio=decrease:force_divisible_by=2"
    let scale_game := "scale=1080:" ++ toString botH ++
      ":force_original_aspect_ratio=decrease:force_divisible_by=2"
    let pad_cam := "pad=1080:" ++ toString topH ++ ":(ow-iw)/2:(oh-ih)/2"
    let pad_game := "pad=1080:" ++ toString botH ++ ":(ow-iw)/2:(oh-ih)/2"
    "[0:v]" ++ crop_cam ++ "," ++ scale_cam ++ "," ++ pad_cam ++ "[cam];[0:v]" ++ crop_game ++
      "," ++ scale_game ++ "," ++ pad_game ++ "[game];[cam][game]vstack=inputs=2[outv]"
  else
    let scale_cam := "scale=w='if(gt(a,1080/" ++ toString topH ++ "),-2,1080)':h='if(gt(a,1080/"
      ++ toString topH ++ ")," ++ toString topH ++ ",-2)'"
    let scale_game := "scale=w='if(gt(a,1080/" ++ toString botH ++ "),-2,1080)':h='if(gt(a,1080/"
      ++ toString botH ++ ")," ++ toString botH ++ ",-2)'"
    let center_cam := "crop=1080:" ++ toString topH ++ ":floor((iw-1080)/2):floor((ih-"
      ++ toString topH ++ ")/2)"
    let center_game := "crop=1080:" ++ toString botH ++ ":floor((iw-1080)/2):floor((ih-"
      ++ toString botH ++ ")/2)"
    "[0:v]" ++ crop_cam ++ "," ++ scale_cam ++ "," ++ center_cam ++ "[cam];[0:v]" ++
      crop_game ++ "," ++ scale_game ++ "," ++ center_game ++
      "[game];[cam][game]vstack=inputs=2[outv]"

/-- Python `str(float)` for the trim values; the float repr is abstracted
by the rational's repr. -/
def floatStr (q : ℚ) : String := toString q

/-- The export artifact path `exports/{clipId}_1080x1920.mp4`
(main.py:1490-1492). -/
def outPathOf (clip_id : String) : String :=
  get_data_path ["media", "exports", clip_id ++ "_1080x1920.mp4"]

/-- The transcoder invocation (main.py:1494-1511): trim flags placed after
the input and before the filter/mapping, 30 fps, H.264 CRF 18, yuv420p, AAC
192k, faststart.  The resolved ffmpeg executable path is abstracted as
`ffmpeg`. -/
def renderCmdOf (req : RenderReq) : List String :=
  let gRatio := clamp01 req.game_ratio
  let fitMode := sanitizeFitMode req.fit_mode
  let plan := computeHeights req.auto_split (clampRect req.camera) (clampRect req.game) gRatio
  let filter := filterComplex req.single_frame fitMode (clampRect req.game)
    (clampRect req.camera) plan.topH plan.botH (panelH req.single_height_ratio)
  let ss := parseStart req.start
  let toq := parseStop req.stop
  ["ffmpeg", "-y", "-i", get_data_path ["media", "clips", req.clip_id ++ ".mp4"]]
  ++ (match ss with | some s => ["-ss", floatStr s] | none => [])
  ++ (match toq with | some t => ["-to", floatStr t] | none => [])
  ++ ["-filter_complex", filter, "-map", "[outv]", "-map", "0:a:0?", "-r", "30",
      "-c:v", "libx264", "-preset", "medium", "-crf", "18", "-pix_fmt", "yuv420p",
      "-c:a", "aac", "-b:a", "192k", "-shortest", "-movflags", "+faststart",
      outPathOf req.clip_id]

/-- Python `s[-n:]`. -/
def pyTail (n : ℕ) (s : String) : String :=
  String.mk (s.toList.drop (s.toList.length - n))

/-- `(res.stderr or '')[-2000:] or (res.stdout or '')[-2000:]`
(main.py:1523). -/
def errTail (stderr stdout : String) : String :=
  let a := pyTail 2000 stderr
  if a = "" then pyTail 2000 stdout else a

/-- Content tags for the export artifact file. -/
inductive Artifact where
  | primary
  | karaoke
  | srtburn
deriving DecidableEq

/-- The external collaborators' outcomes for one render call. -/
structure RenderEnv where
  clipExists : Bool
  initialArtifact : Option Artifact
  ffmpegRc : ℤ
  ffmpegStderr : String
  ffmpegStdout : String
  jsonExists : Bool
  transcribeMakesJson : Bool
  segments : List Seg
  setOrder : List String → List String
  karaokeWriteOk : Bool
  karaokeReplaceOk : Bool
  srtExists : Bool
  srtBurnRc : ℤ
  srtBurnStderr : String
  srtBurnStdout : String
  srtReplaceOk : ℕ → Bool
  altReplaceOk : Bool

/-- The HTTP response of /api/render. -/
structure RenderResp where
  ok : Bool
  httpCode : ℕ
  url : Option String
  error : Option String
  karaoke : Option String

/-- Everything one call to /api/render leaves behind: the response, the
status records written (in order), and the contents this call left at the
primary and the secondary export paths. -/
structure RenderOutcome where
  resp : RenderResp
  writes : List StatusWrite
  artifact : Option Artifact
  altArtifact : Option Artifact

/-- The karaoke stage of `api_render` (main.py:1569-1852): if the
word-level JSON is missing, an automatic transcription is attempted
(main.py:1575-1627); if it is still missing the stage skips.  Otherwise the
karaoke CLI runs `apply_karaoke_overlay` on the artifact (main.py:1629-1663)
and the stage reports `applied` exactly on exit code 0.  Returns the status
string and whether the artifact was replaced. -/
def karaoke_stage (env : RenderEnv) (outPath : String) (offset : ℚ) : String × Bool :=
  if env.jsonExists ∨ env.transcribeMakesJson then
    let rc := (apply_karaoke_overlay env.setOrder env.segments offset outPath none 0
      env.karaokeWriteOk env.karaokeReplaceOk).1
    (karaoke_cli_status rc, rc = 0)
  else ("skipped: json not found", false)

/-- The karaoke stage outcome as selected by `api_render`
(main.py:1849-1852): the stage runs only when `include_subtitles` is set
(status `disabled` otherwise); the offset handed to the CLI is the parsed
trim start or 0 (main.py:1640). -/
def ksOf (req : RenderReq) (env : RenderEnv) : String × Bool :=
  if req.include_subtitles then
    karaoke_stage env (outPathOf req.clip_id) ((parseStart req.start).getD 0)
  else ("disabled", false)

/-- `api_render` (main.py:1296-1997).  Modelling notes: the ffmpeg
executable is assumed found (main.py:1396-1402); subprocess launches and
status-file writes are assumed not to raise; the SRT time-shift
(main.py:1857-1888) only rewrites the temporary subtitle file and is not
observable here.  The `running` status write (main.py:1404-1422) evaluates
its params dict while the locals `ss`/`to` are still unassigned (their
first assignment is main.py:1474), so CPython raises `UnboundLocalError`
inside the `try` and the `except Exception: pass` drops the write. -/
def api_render_model (req : RenderReq) (env : RenderEnv) : RenderOutcome :=
  if req.clip_id = "" then
    ⟨⟨false, 400, none, some "clip_id required", none⟩, [], env.initialArtifact, none⟩
  else if env.clipExists = false then
    ⟨⟨false, 404, none, some ("clip file not found: " ++ req.clip_id ++ ".mp4"), none⟩,
      [], env.initialArtifact, none⟩
  else
    let gRatio := clamp01 req.game_ratio
    let fitMode := sanitizeFitMode req.fit_mode
    let shr := max (1/20) (min (19/20) req.single_height_ratio)
    let writes0 := tryWriteRunning req gRatio shr fitMode ⟨none, none⟩
    let ss := parseStart req.start
    let toq := parseStop req.stop
    let cmdStr := String.intercalate " " (renderCmdOf req)
    if env.ffmpegRc ≠ 0 then
      let err := errTail env.ffmpegStderr env.ffmpegStdout
      ⟨⟨false, 500, none, some err, none⟩,
        writes0 ++ [⟨req.clip_id, "error", none, some err, some cmdStr, none, none⟩],
        none, none⟩
    else
      let ks := ksOf req env
      let art2 := if ks.2 then some Artifact.karaoke else some Artifact.primary
      let url := "/media/exports/" ++ req.clip_id ++ "_1080x1920.mp4"
      let finish := fun (st : String) (art : Option Artifact) =>
        (⟨⟨true, 200, some url, none, some st⟩,
          writes0 ++ [⟨req.clip_id, "done", some url, none, some cmdStr, some st,
            some ⟨req.game, req.camera, gRatio, req.auto_split, req.single_frame, shr,
              fitMode, ss, toq, some req.include_subtitles⟩⟩],
          art, none⟩ : RenderOutcome)
      if req.include_subtitles = true ∧ ks.1 ≠ "applied" ∧ env.srtExists = true then
        if env.srtBurnRc = 0 then
          if (List.range 5).any env.srtReplaceOk then
            finish ("fallback_srt_applied (prev: " ++ ks.1 ++ ")") (some Artifact.srtburn)
          else if env.altReplaceOk then
            let altUrl := "/media/exports/" ++ req.clip_id ++ "_1080x1920.subs.mp4"
            let st := "fallback_srt_applied_alt (prev: " ++ ks.1 ++ ")"
            ⟨⟨true, 200, some altUrl, none, some st⟩,
              writes0 ++ [⟨req.clip_id, "done", some altUrl, none, none, some st, none⟩],
              art2, some Artifact.srtburn⟩
          else
            finish "fallback_srt_exception: alt replace failed" art2
        else
          let msg := if env.srtBurnStderr ≠ "" then env.srtBurnStderr
            else if env.srtBurnStdout ≠ "" then env.srtBurnStdout else "ffmpeg failed"
          finish ("fallback_srt_failed: " ++ msg) art2
      else
        finish ks.1 art2

lemma pyTail_length_le (n : ℕ) (s : String) : (pyTail n s).length ≤ n := by
  unfold pyTail
  have h : (String.mk (s.toList.drop (s.toList.length - n))).length
      = (s.toList.drop (s.toList.length - n)).length := rfl
  rw [h, List.length_drop]
  omega

lemma errTail_length_le (a b : String) : (errTail a b).length ≤ 2000 := by
  unfold errTail
  dsimp only
  split
  · exact pyTail_length_le 2000 b
  · exact pyTail_length_le 2000 a

/-- Claim C1 (code bug): no `running` RenderStatus record is ever persisted
by `api_render`.  The params dict of the running-status write
(main.py:1409-1419) reads the locals `ss`/`to` whose first assignment is
main.py:1474, later in the function; CPython raises `UnboundLocalError`
there, `except Exception: pass` (main.py:1421-1422) swallows it, and no
record is written — while the same write with bound locals (third
conjunct) would have produced exactly the `running` record the spec
describes. -/
theorem running_status_never_persisted (req : RenderReq) (env : RenderEnv) :
    "running" ∉ (api_render_model req env).writes.map StatusWrite.state ∧
    tryWriteRunning req (clamp01 req.game_ratio)
      (max (1/20) (min (19/20) req.single_height_ratio)) (sanitizeFitMode req.fit_mode)
      ⟨none, none⟩ = [] ∧
    (tryWriteRunning req (clamp01 req.game_ratio)
      (max (1/20) (min (19/20) req.single_height_ratio)) (sanitizeFitMode req.fit_mode)
      ⟨some (parseStart req.start), some (parseStop req.stop)⟩).map StatusWrite.state
      = ["running"] := by
  refine ⟨?_, rfl, rfl⟩
  unfold api_render_model
  by_cases h1 : req.clip_id = ""
  · rw [if_pos h1]
    simp
  · rw [if_neg h1]
    by_cases h2 : env.clipExists = false
    · rw [if_pos h2]
      simp
    · rw [if_neg h2]
      by_cases h3 : env.ffmpegRc ≠ 0
      · rw [if_pos h3]
        simp [tryWriteRunning, runningParams]
      · rw [if_neg h3]
        by_cases hC : req.include_subtitles = true ∧ (ksOf req env).1 ≠ "applied" ∧
          env.srtExists = true
        · rw [if_pos hC]
          by_cases hB : env.srtBurnRc = 0
          · rw [if_pos hB]
            by_cases hR : (List.range 5).any env.srtReplaceOk = true
            · rw [if_pos hR]
              simp [tryWriteRunning, runningParams]
            · rw [if_neg hR]
              by_cases hAlt : env.altReplaceOk = true
              · rw [if_pos hAlt]
                simp [tryWriteRunning, runningParams]
              · rw [if_neg hAlt]
                simp [tryWriteRunning, runningParams]
          · rw [if_neg hB]
            simp [tryWriteRunning, runningParams]
        · rw [if_neg hC]
          simp [tryWriteRunning, runningParams]

/-- Claim C4 (confirmed): when the transcoder exits non-zero on the primary
render pass, the response reports failure (HTTP 500, `ok = false`) with the
tail-truncated diagnostics, the partial export artifact is deleted, and the
only status record written is an `error` record carrying the same truncated
diagnostic tail (at most 2000 characters) and the exact joined
invocation. -/
theorem render_error_branch (req : RenderReq) (env : RenderEnv)
    (h1 : ¬ req.clip_id = "") (h2 : env.clipExists = true) (h3 : env.ffmpegRc ≠ 0) :
    (api_render_model req env).resp.ok = false ∧
    (api_render_model req env).resp.httpCode = 500 ∧
    (api_render_model req env).resp.error =
      some (errTail env.ffmpegStderr env.ffmpegStdout) ∧
    (api_render_model req env).artifact = none ∧
    (api_render_model req env).writes =
      [⟨req.clip_id, "error", none, some (errTail env.ffmpegStderr env.ffmpegStdout),
        some (String.intercalate " " (renderCmdOf req)), none, none⟩] ∧
    (errTail env.ffmpegStderr env.ffmpegStdout).length ≤ 2000 := by
  unfold api_render_model
  rw [if_neg h1, if_neg (by simp [h2]), if_pos h3]
  exact ⟨rfl, rfl, rfl, rfl, by simp [tryWriteRunning, runningParams],
    errTail_length_le _ _⟩

/-- Claim C4 witness: the error-branch theorem applied at a concrete
request whose transcoder run exits 1. -/
theorem render_error_branch_witness :
    (api_render_model ⟨"clip1", fullRect, fullRect, 7/10, false, "contain", false, 2/5,
        none, none, true⟩
      ⟨true, none, 1, "boom", "", false, false, [], id, true, true, false, 0, "", "",
        fun _ => false, true⟩).resp.httpCode = 500 ∧
    (api_render_model ⟨"clip1", fullRect, fullRect, 7/10, false, "contain", false, 2/5,
        none, none, true⟩
      ⟨true, none, 1, "boom", "", false, false, [], id, true, true, false, 0, "", "",
        fun _ => false, true⟩).artifact = none := by
  have h := render_error_branch
    ⟨"clip1", fullRect, fullRect, 7/10, false, "contain", false, 2/5, none, none, true⟩
    ⟨true, none, 1, "boom", "", false, false, [], id, true, true, false, 0, "", "",
      fun _ => false, true⟩
    (by decide) rfl (by decide)
  exact ⟨h.2.1, h.2.2.2.1⟩

/-- Claim C8 (confirmed): when the static subtitle burn succeeds but all 5
attempts to atomically replace the primary artifact fail, the burned result
lands at the deterministic secondary name `{clipId}_1080x1920.subs.mp4`
(a pure function of the clip id, not a random name), the response URL
points at it, the status string records the fallback
(`fallback_srt_applied_alt (prev: ...)`), and the done record carries the
secondary URL. -/
theorem srt_fallback_alt_path (req : RenderReq) (env : RenderEnv)
    (h1 : ¬ req.clip_id = "") (h2 : env.clipExists = true) (h3 : env.ffmpegRc = 0)
    (hsub : req.include_subtitles = true)
    (hkar : (karaoke_stage env (outPathOf req.clip_id)
      ((parseStart req.start).getD 0)).1 ≠ "applied")
    (hsrt : env.srtExists = true) (hburn : env.srtBurnRc = 0)
    (hrep : ∀ i < 5, env.srtReplaceOk i = false)
    (halt : env.altReplaceOk = true) :
    (api_render_model req env).resp.ok = true ∧
    (api_render_model req env).resp.url =
      some ("/media/exports/" ++ req.clip_id ++ "_1080x1920.subs.mp4") ∧
    (api_render_model req env).resp.karaoke =
      some ("fallback_srt_applied_alt (prev: " ++
        (karaoke_stage env (outPathOf req.clip_id) ((parseStart req.start).getD 0)).1
        ++ ")") ∧
    (api_render_model req env).altArtifact = some Artifact.srtburn ∧
    (api_render_model req env).writes =
      [⟨req.clip_id, "done",
        some ("/media/exports/" ++ req.clip_id ++ "_1080x1920.subs.mp4"), none, none,
        some ("fallback_srt_applied_alt (prev: " ++
          (karaoke_stage env (outPathOf req.clip_id) ((parseStart req.start).getD 0)).1
          ++ ")"), none⟩] := by
  have hany : (List.range 5).any env.srtReplaceOk = false := by
    rw [List.any_eq_false]
    intro i hi
    simp only [List.mem_range] at hi
    simp [hrep i hi]
  have hks : ksOf req env
      = karaoke_stage env (outPathOf req.clip_id) ((parseStart req.start).getD 0) := by
    unfold ksOf
    rw [if_pos hsub]
  unfold api_render_model
  rw [if_neg h1, if_neg (by simp [h2]), if_neg (by simp [h3])]
  rw [if_pos ⟨hsub, by rw [hks]; exact hkar, hsrt⟩, if_pos hburn,
    if_neg (by simp [hany]), if_pos halt, hks]
  exact ⟨rfl, rfl, rfl, rfl, by simp [tryWriteRunning, runningParams]⟩

/-- Claim C8 witness: the fallback theorem applied at a concrete request
whose karaoke stage skips (no transcript JSON), whose burn succeeds, and
whose 5 replace attempts all fail. -/
theorem srt_fallback_alt_path_witness :
    (api_render_model ⟨"c8", fullRect, fullRect, 1/2, false, "contain", false, 2/5,
        none, none, true⟩
      ⟨true, none, 0, "", "", false, false, [], id, true, true, true, 0, "", "",
        fun _ => false, true⟩).resp.url =
      some "/media/exports/c8_1080x1920.subs.mp4" :=
  (srt_fallback_alt_path
    ⟨"c8", fullRect, fullRect, 1/2, false, "contain", false, 2/5, none, none, true⟩
    ⟨true, none, 0, "", "", false, false, [], id, true, true, true, 0, "", "",
      fun _ => false, true⟩
    (by decide) rfl rfl rfl (by decide) rfl rfl (fun i _ => rfl) rfl).2.1

/-! ## The status poll endpoint `api_render_status` (main.py:1999-2043) -/

/-- The JSON body answered by /api/render/status. -/
structure StatusResp where
  code : ℕ
  clip_id : String
  state : String
  url : Option String
  error : Option String
  karaoke : Option String

/-- `api_render_status` (main.py:1999-2043): `fileExists` stands for
`os.path.exists(out_path)` and `st` for the stored record.  The artifact's
existence wins: when the export file is on disk the endpoint answers
`done` with the artifact URL regardless of the stored record (which only
contributes its `karaoke` field); otherwise the stored record's basic
fields (or `idle`) are reported.  Verbose mode only adds diagnostic keys
and is not modelled separately. -/
def api_render_status_model (clip_id : String) (fileExists : Bool)
    (st : Option StatusWrite) : StatusResp :=
  if clip_id = "" then ⟨400, clip_id, "", none, some "clip_id required", none⟩
  else
    let url := "/media/exports/" ++ clip_id ++ "_1080x1920.mp4"
    if fileExists then
      ⟨200, clip_id, "done", some url, none,
        match st with | some s => s.karaoke | none => none⟩
    else
      match st with
      | some s => ⟨200, clip_id, s.state, s.url, s.error, s.karaoke⟩
      | none => ⟨200, clip_id, "idle", none, none, none⟩

/-- Claim C10 (confirmed): whenever the export artifact file
`{clipId}_1080x1920.mp4` exists on disk, the poll endpoint reports state
`done` with that artifact's URL, no matter what the persisted RenderStatus
record says — an `error` or `running` record included. -/
theorem render_status_done_when_artifact_exists (clip_id : String)
    (st : Option StatusWrite) (h : ¬ clip_id = "") :
    (api_render_status_model clip_id true st).state = "done" ∧
    (api_render_status_model clip_id true st).url =
      some ("/media/exports/" ++ clip_id ++ "_1080x1920.mp4") := by
  unfold api_render_status_model
  rw [if_neg h]
  exact ⟨rfl, rfl⟩

/-- Claim C10 witness: the endpoint applied with a stored `error` record
while the artifact file exists. -/
theorem render_status_done_witness :
    (api_render_status_model "abc" true
      (some ⟨"abc", "error", none, some "boom", none, none, none⟩)).state = "done" :=
  (render_status_done_when_artifact_exists "abc"
    (some ⟨"abc", "error", none, some "boom", none, none, none⟩) (by decide)).1

end E2EClip
